import Mathlib

/-!
Shallow embedding of the TaskVoloners backend (the Express + Postgres request
handlers in `src/App.js`).  The relational store is modelled as in-memory
lists of rows; each HTTP handler becomes a Lean function from the store (and
the authenticated caller decoded from the bearer token) to a result and, for
mutating handlers, an updated store.  Storage faults for the transactional
event-creation handler are modelled by an explicit fault oracle indexed by
query position.  Machine-level concerns (connection pooling, JSON transport)
are out of scope; the logic of each handler is translated statement by
statement.
-/

namespace TaskVoloners

/-- A row of the `events` table. -/
structure Event where
  id : Nat
  organizerId : Nat
  title : String
  descr : String
  date : Int
  location : String
  deriving DecidableEq, Repr

/-- A row of the `roles` table. -/
structure Role where
  id : Nat
  eventId : Nat
  name : String
  descr : String
  requiredVolunteers : Int
  deriving DecidableEq, Repr

/-- A row of the `volunteer_roles` table (an Assignment: a volunteer's claim
on a role, with its attended flag, default false). -/
structure Assignment where
  id : Nat
  volunteerId : Nat
  roleId : Nat
  attended : Bool
  deriving DecidableEq, Repr

/-- A row of the `volunteers` table (only the columns the handlers read). -/
structure Volunteer where
  id : Nat
  name : String
  email : String
  deriving DecidableEq, Repr

/-- The relational store: the four tables the core handlers touch, plus a
surrogate-key generator standing in for the database sequences. -/
structure Store where
  events : List Event
  roles : List Role
  assignments : List Assignment
  volunteers : List Volunteer
  nextId : Nat
  deriving DecidableEq, Repr

/-- The identity decoded from a verified JWT: `{ userId, userType }`, where
`userType` is the free-form string tag used by the source ("org" or
"volunteer"). -/
structure AuthUser where
  userId : Nat
  userType : String
  deriving DecidableEq, Repr

/-- One role descriptor in the body of `POST /api/events`. -/
structure RoleInput where
  name : String
  descr : String
  requiredVolunteers : Int
  deriving DecidableEq, Repr

/-- The body of `POST /api/events`. -/
structure CreateEventReq where
  title : String
  descr : String
  date : Int
  location : String
  roles : List RoleInput
  deriving DecidableEq, Repr

/-- Outcomes of `POST /api/events`.  The handler only ever produces the
first three; `validationError` is included so that specification claims
about a `ValidationError` outcome can be stated against the model. -/
inductive CreateEventResult where
  | forbidden
  | created (e : Event)
  | serverError
  | validationError
  deriving DecidableEq, Repr

/-- Outcomes of `POST /api/roles/:roleId/signup`.  The handler only ever
produces the first three (403 / 400 duplicate / 201); `notFound` is included
so that claims about a `NotFound` outcome can be stated against the model. -/
inductive SignupResult where
  | forbidden
  | alreadySignedUp
  | signedUp
  | notFound
  deriving DecidableEq, Repr

/-- Outcomes of `PATCH /api/attendance/:recordId`.  The handler only ever
produces `forbidden` (403) or `updated` (200); `notFound` is included so
that claims about a `NotFound` outcome can be stated against the model. -/
inductive AttendanceResult where
  | forbidden
  | updated
  | notFound
  deriving DecidableEq, Repr

/-- One row of the coordinator roster view returned by
`GET /api/events/:eventId/volunteers`. -/
structure RosterRow where
  volunteerId : Nat
  name : String
  email : String
  roleName : String
  attended : Bool
  recordId : Nat
  deriving DecidableEq, Repr

/-- Outcome of `GET /api/events/:eventId/volunteers`. -/
inductive RosterResult where
  | forbidden
  | rows (l : List RosterRow)
  deriving DecidableEq, Repr

/-- One row of the upcoming / past lists of `GET /api/volunteer/profile`. -/
structure ProfileEntry where
  event : Event
  roleName : String
  attended : Bool
  deriving DecidableEq, Repr

/-- The `stats` object of the profile response. -/
structure Stats where
  totalEvents : Nat
  totalHours : Nat
  deriving DecidableEq, Repr

/-- The body of a successful `GET /api/volunteer/profile` response. -/
structure Profile where
  upcoming : List ProfileEntry
  past : List ProfileEntry
  stats : Stats
  deriving DecidableEq, Repr

/-- Outcome of `GET /api/volunteer/profile`. -/
inductive ProfileResult where
  | forbidden
  | ok (p : Profile)
  deriving DecidableEq, Repr

/-- The role INSERTs of the `POST /api/events` transaction, in request
order.  `k` is the position of the next query in the transaction (query 0
is the event INSERT) and `startId` the next surrogate key; if the fault
oracle fires at any position the whole transaction is rolled back
(`none`). -/
def insertRoles (eventId : Nat) (startId : Nat) (inputs : List RoleInput)
    (k : Nat) (fault : Nat → Bool) : Option (List Role) :=
  match inputs with
  | [] => some []
  | ri :: rest =>
    if fault k then none
    else
      (insertRoles eventId (startId + 1) rest (k + 1) fault).map
        (fun rs => ⟨startId, eventId, ri.name, ri.descr, ri.requiredVolunteers⟩ :: rs)

/-- `POST /api/events` (`src/App.js` lines 133-166).  Requires
`userType = "org"` (else 403); then, inside a BEGIN/COMMIT transaction,
inserts the event row and one role row per entry of `req.roles`; any
storage fault (query `i` of the transaction faults when `fault i` is true)
triggers ROLLBACK, a 500 response, and an unchanged store.  The handler
performs no validation of `req.roles`. -/
def createEvent (s : Store) (u : AuthUser) (req : CreateEventReq)
    (fault : Nat → Bool) : CreateEventResult × Store :=
  if u.userType ≠ "org" then (.forbidden, s)
  else if fault 0 then (.serverError, s)
  else
    let ev : Event := ⟨s.nextId, u.userId, req.title, req.descr, req.date, req.location⟩
    match insertRoles ev.id (s.nextId + 1) req.roles 1 fault with
    | none => (.serverError, s)
    | some rs =>
      (.created ev,
        { s with
          events := s.events ++ [ev]
          roles := s.roles ++ rs
          nextId := s.nextId + 1 + rs.length })

/-- `POST /api/roles/:roleId/signup` (`src/App.js` lines 219-243), as one
request executed in isolation.  Requires `userType = "volunteer"`; then a
SELECT checks for an existing (volunteerId, roleId) assignment, answering
400 if one exists, and otherwise an INSERT creates the assignment (201).
The handler never consults the `roles` table. -/
def signup (s : Store) (u : AuthUser) (roleId : Nat) : SignupResult × Store :=
  if u.userType ≠ "volunteer" then (.forbidden, s)
  else if s.assignments.any (fun a => a.volunteerId = u.userId ∧ a.roleId = roleId) then
    (.alreadySignedUp, s)
  else
    (.signedUp,
      { s with
        assignments := s.assignments ++ [⟨s.nextId, u.userId, roleId, false⟩]
        nextId := s.nextId + 1 })

/-- The phase of one in-flight signup request: before its SELECT, between
its SELECT and its INSERT, or finished with a result. -/
inductive SignupPhase where
  | start
  | willInsert
  | done (r : SignupResult)
  deriving DecidableEq, Repr

/-- An in-flight signup call (already authenticated as a volunteer): the
caller's id, the target role id, and the phase reached. -/
structure SignupCall where
  volunteerId : Nat
  roleId : Nat
  phase : SignupPhase
  deriving DecidableEq, Repr

/-- One atomic database statement of a signup call.  The SELECT and the
INSERT of `src/App.js` lines 225-237 are separate `pool.query` calls with
no surrounding transaction, so each is a single step and other calls may
interleave between them. -/
def stepSignup (s : Store) (c : SignupCall) : SignupCall × Store :=
  match c.phase with
  | .start =>
    if s.assignments.any (fun a => a.volunteerId = c.volunteerId ∧ a.roleId = c.roleId) then
      ({ c with phase := .done .alreadySignedUp }, s)
    else
      ({ c with phase := .willInsert }, s)
  | .willInsert =>
    ({ c with phase := .done .signedUp },
      { s with
        assignments := s.assignments ++ [⟨s.nextId, c.volunteerId, c.roleId, false⟩]
        nextId := s.nextId + 1 })
  | .done _ => (c, s)

/-- Run a set of concurrent signup calls under an explicit schedule: each
entry of `sched` names the call that performs its next atomic statement. -/
def runSignups (calls : List SignupCall) (s : Store) :
    List Nat → List SignupCall × Store
  | [] => (calls, s)
  | i :: rest =>
    match calls[i]? with
    | none => runSignups calls s rest
    | some c =>
      let (c1, s1) := stepSignup s c
      runSignups (calls.set i c1) s1 rest

/-- The ownership chain of `PATCH /api/attendance/:recordId`
(`src/App.js` lines 325-331): resolve the assignment, its role, its event,
and return the event's organizer id; `none` when the chain breaks. -/
def chainOrganizer (s : Store) (recordId : Nat) : Option Nat :=
  match s.assignments.find? (fun a => a.id = recordId) with
  | none => none
  | some a =>
    match s.roles.find? (fun r => r.id = a.roleId) with
    | none => none
    | some r =>
      match s.events.find? (fun e => e.id = r.eventId) with
      | none => none
      | some e => some e.organizerId

/-- `PATCH /api/attendance/:recordId` (`src/App.js` lines 319-346).  The
ownership chain is looked up; if it resolves to no row, or to an organizer
id different from the caller's id, the handler answers 403 untouched.
Otherwise the UPDATE sets the assignment's attended flag.  The handler
never checks `userType`. -/
def setAttendance (s : Store) (u : AuthUser) (recordId : Nat) (attended : Bool) :
    AttendanceResult × Store :=
  match chainOrganizer s recordId with
  | none => (.forbidden, s)
  | some orgId =>
    if orgId ≠ u.userId then (.forbidden, s)
    else
      (.updated,
        { s with
          assignments := s.assignments.map
            (fun a => if a.id = recordId then { a with attended := attended } else a) })

/-- The FROM/JOIN/WHERE of the roster query of
`GET /api/events/:eventId/volunteers` (`src/App.js` lines 302-309). -/
def rosterJoin (s : Store) (eventId : Nat) : List RosterRow :=
  s.volunteers.flatMap (fun v =>
    s.assignments.flatMap (fun a =>
      if a.volunteerId = v.id then
        (s.roles.filter (fun r => r.id = a.roleId ∧ r.eventId = eventId)).map
          (fun r => ⟨v.id, v.name, v.email, r.name, a.attended, a.id⟩)
      else []))

/-- ORDER BY r.name, v.name of the roster query. -/
def rosterLe (x y : RosterRow) : Bool :=
  decide (x.roleName < y.roleName) ||
    (x.roleName == y.roleName && decide (x.name ≤ y.name))

/-- `GET /api/events/:eventId/volunteers` (`src/App.js` lines 289-316).
The event's organizer id is looked up; when the event is missing or owned
by a different account the handler answers 403; otherwise it returns the
roster rows.  The handler never checks `userType` and never writes. -/
def listVolunteers (s : Store) (u : AuthUser) (eventId : Nat) : RosterResult :=
  match s.events.find? (fun e => e.id = eventId) with
  | none => .forbidden
  | some e =>
    if e.organizerId ≠ u.userId then .forbidden
    else .rows ((rosterJoin s eventId).mergeSort rosterLe)

/-- The FROM/JOIN of both profile queries of `GET /api/volunteer/profile`
(`src/App.js` lines 251-268), before the date restriction: events joined
with their roles and the caller's assignments. -/
def profileJoin (s : Store) (uid : Nat) : List ProfileEntry :=
  s.events.flatMap (fun e =>
    (s.roles.filter (fun r => r.eventId = e.id)).flatMap (fun r =>
      (s.assignments.filter (fun a => a.roleId = r.id ∧ a.volunteerId = uid)).map
        (fun a => ⟨e, r.name, a.attended⟩)))

/-- ORDER BY e.date ASC. -/
def dateAsc (x y : ProfileEntry) : Bool :=
  decide (x.event.date ≤ y.event.date)

/-- ORDER BY e.date DESC. -/
def dateDesc (x y : ProfileEntry) : Bool :=
  decide (y.event.date ≤ x.event.date)

/-- The first profile query (`src/App.js` lines 251-258): the join
restricted to `e.date > NOW()`, ORDER BY e.date ASC. -/
def upcomingOf (s : Store) (uid : Nat) (now : Int) : List ProfileEntry :=
  ((profileJoin s uid).filter (fun x => now < x.event.date)).mergeSort dateAsc

/-- The second profile query (`src/App.js` lines 261-268): the join
restricted to `e.date <= NOW()`, ORDER BY e.date DESC. -/
def pastOf (s : Store) (uid : Nat) (now : Int) : List ProfileEntry :=
  ((profileJoin s uid).filter (fun x => x.event.date ≤ now)).mergeSort dateDesc

/-- `GET /api/volunteer/profile` (`src/App.js` lines 246-285).  Requires
`userType = "volunteer"`; `upcoming` is the join restricted to
`e.date > NOW()` ordered ascending, `past` the join restricted to
`e.date <= NOW()` ordered descending; `totalEvents` counts the past rows
whose attended flag is set and `totalHours` is three per such event. -/
def volunteerProfile (s : Store) (u : AuthUser) (now : Int) : ProfileResult :=
  if u.userType ≠ "volunteer" then .forbidden
  else
    let past := pastOf s u.userId now
    let totalEventsAttended := (past.filter (fun x => x.attended)).length
    .ok ⟨upcomingOf s u.userId now, past, ⟨totalEventsAttended, totalEventsAttended * 3⟩⟩

/-! ### Helper lemmas -/

theorem insertRoles_eq_some (eventId : Nat) (inputs : List RoleInput)
    (fault : Nat → Bool) :
    ∀ (startId k : Nat) (rs : List Role),
      insertRoles eventId startId inputs k fault = some rs →
      rs.length = inputs.length ∧ (∀ r ∈ rs, r.eventId = eventId) ∧
        rs.map (fun r => (r.name, r.descr, r.requiredVolunteers)) =
          inputs.map (fun ri => (ri.name, ri.descr, ri.requiredVolunteers)) := by
  induction inputs with
  | nil =>
    intro startId k rs h
    simp only [insertRoles, Option.some.injEq] at h
    subst h
    simp
  | cons ri rest ih =>
    intro startId k rs h
    simp only [insertRoles] at h
    split at h
    · exact absurd h (by simp)
    · cases hrec : insertRoles eventId (startId + 1) rest (k + 1) fault with
      | none => rw [hrec] at h; simp at h
      | some rs' =>
        rw [hrec] at h
        simp at h
        obtain ⟨hl, hev, hmap⟩ := ih (startId + 1) (k + 1) rs' hrec
        subst h
        refine ⟨by simp [hl], ?_, by simp [hmap]⟩
        intro r hr
        rcases List.mem_cons.mp hr with h1 | h1
        · subst h1; rfl
        · exact hev r h1

theorem insertRoles_no_fault (eventId : Nat) (inputs : List RoleInput) :
    ∀ (startId k : Nat),
      ∃ rs, insertRoles eventId startId inputs k (fun _ => false) = some rs := by
  induction inputs with
  | nil => intro startId k; exact ⟨[], rfl⟩
  | cons ri rest ih =>
    intro startId k
    obtain ⟨rs, h⟩ := ih (startId + 1) (k + 1)
    exact ⟨⟨startId, eventId, ri.name, ri.descr, ri.requiredVolunteers⟩ :: rs,
      by simp [insertRoles, h]⟩

/-! ### C2 — event creation is all-or-nothing -/

/-- C2: `createEvent` is all-or-nothing.  For every store, caller, request
and fault oracle, either the call does not succeed and the store is exactly
unchanged (no event row, no role row persists), or it succeeds and the store
gains exactly the event row plus one role row per requested role, carrying
the requested fields, and nothing else changes. -/
theorem createEvent_atomic (s : Store) (u : AuthUser) (req : CreateEventReq)
    (fault : Nat → Bool) :
    (∃ r, createEvent s u req fault = (r, s) ∧
        ∀ e, r ≠ CreateEventResult.created e) ∨
    (∃ e rs, createEvent s u req fault =
        (.created e,
          { s with
            events := s.events ++ [e]
            roles := s.roles ++ rs
            nextId := s.nextId + 1 + rs.length }) ∧
      rs.length = req.roles.length ∧ (∀ r ∈ rs, r.eventId = e.id) ∧
      rs.map (fun r => (r.name, r.descr, r.requiredVolunteers)) =
        req.roles.map (fun ri => (ri.name, ri.descr, ri.requiredVolunteers))) := by
  by_cases hty : u.userType ≠ "org"
  · exact Or.inl ⟨.forbidden, by simp [createEvent, hty], fun e h => by cases h⟩
  · by_cases hf : fault 0
    · exact Or.inl ⟨.serverError, by simp [createEvent, hty, hf], fun e h => by cases h⟩
    · cases h : insertRoles s.nextId (s.nextId + 1) req.roles 1 fault with
      | none =>
        exact Or.inl ⟨.serverError, by simp [createEvent, hty, hf, h],
          fun e hc => by cases hc⟩
      | some rs =>
        obtain ⟨hl, hev, hmap⟩ := insertRoles_eq_some _ _ _ _ _ _ h
        refine Or.inr ⟨⟨s.nextId, u.userId, req.title, req.descr, req.date,
          req.location⟩, rs, ?_, hl, hev, hmap⟩
        simp [createEvent, hty, hf, h]

/-! ### C3 — the handler performs no input validation -/

/-- C3 counterexample: an organization submits a creation request with an
EMPTY roles list and no storage fault occurs; the claim says the call fails
with `ValidationError` and creates nothing, but the handler creates the
event (with zero roles) and answers 201, an outcome distinct from
`validationError`. -/
theorem createEvent_empty_roles_cex :
    createEvent ⟨[], [], [], [], 7⟩ ⟨10, "org"⟩ ⟨"T", "D", 5, "L", []⟩
        (fun _ => false) =
      (.created ⟨7, 10, "T", "D", 5, "L"⟩,
        ⟨[⟨7, 10, "T", "D", 5, "L"⟩], [], [], [], 8⟩) ∧
    (CreateEventResult.created ⟨7, 10, "T", "D", 5, "L"⟩ ≠
      CreateEventResult.validationError) := by
  constructor
  · rfl
  · intro h; cases h

/-- C3 amended: `createEvent` performs no validation of the roles list.
For every organization caller whose request has an empty roles list or a
role with a negative headcount, absent storage faults the call succeeds:
the event row (and every submitted role row, possibly none) is persisted
and no `ValidationError` is ever produced. -/
theorem createEvent_accepts_invalid_roles (s : Store) (u : AuthUser)
    (req : CreateEventReq) (ht : u.userType = "org")
    (_hbad : req.roles = [] ∨ ∃ ri ∈ req.roles, ri.requiredVolunteers < 0) :
    ∃ e s1, createEvent s u req (fun _ => false) = (.created e, s1) ∧
      s1.events = s.events ++ [e] ∧
      s1.roles.length = s.roles.length + req.roles.length := by
  obtain ⟨rs, h⟩ := insertRoles_no_fault s.nextId req.roles (s.nextId + 1) 1
  obtain ⟨hl, -, -⟩ := insertRoles_eq_some _ _ _ _ _ _ h
  refine ⟨⟨s.nextId, u.userId, req.title, req.descr, req.date, req.location⟩,
    { s with
      events := s.events ++
        [⟨s.nextId, u.userId, req.title, req.descr, req.date, req.location⟩]
      roles := s.roles ++ rs
      nextId := s.nextId + 1 + rs.length }, ?_, rfl, by simp [hl]⟩
  simp [createEvent, ht, h]

/-- C3 amended, witness: a concrete empty-roles request is accepted. -/
theorem createEvent_accepts_invalid_roles_witness :
    ∃ e s1,
      createEvent ⟨[], [], [], [], 7⟩ ⟨10, "org"⟩ ⟨"T", "D", 5, "L", []⟩
          (fun _ => false) = (.created e, s1) ∧
        s1.events = (⟨[], [], [], [], 7⟩ : Store).events ++ [e] ∧
        s1.roles.length = (⟨[], [], [], [], 7⟩ : Store).roles.length +
          (⟨"T", "D", 5, "L", []⟩ : CreateEventReq).roles.length :=
  createEvent_accepts_invalid_roles ⟨[], [], [], [], 7⟩ ⟨10, "org"⟩
    ⟨"T", "D", 5, "L", []⟩ rfl (Or.inl rfl)

/-! ### C1 — the signup uniqueness check is not atomic -/

/-- The store for the race scenario: one event (id 1, organizer 10) with
one role (id 2) and no assignments yet. -/
def raceStore : Store :=
  ⟨[⟨1, 10, "E", "d", 100, "loc"⟩], [⟨2, 1, "Setup", "d", 2⟩], [], [], 50⟩

/-- Two concurrent signup calls by volunteer 5 for role 2. -/
def raceCalls : List SignupCall := [⟨5, 2, .start⟩, ⟨5, 2, .start⟩]

/-- C1 refutation: because the existence SELECT and the INSERT of the
signup handler are two separate statements with no transaction around
them, the arrival order SELECT₀, SELECT₁, INSERT₀, INSERT₁ (schedule
`[0, 1, 0, 1]`) lets both of two concurrent calls for the same
(volunteerId 5, roleId 2) pair pass the check: afterwards TWO assignment
rows for the pair exist and both calls answer 201, so zero of the N = 2
calls return the duplicate `ConflictError` — contradicting the claimed
exactly-one-assignment, N−1-conflicts, atomic check-and-insert behavior. -/
theorem signup_race_two_assignments :
    ((runSignups raceCalls raceStore [0, 1, 0, 1]).2.assignments.filter
        (fun a => a.volunteerId = 5 ∧ a.roleId = 2)).length = 2 ∧
    (runSignups raceCalls raceStore [0, 1, 0, 1]).1 =
      [⟨5, 2, .done .signedUp⟩, ⟨5, 2, .done .signedUp⟩] := by
  decide

/-! ### C4 — a missing attendance record yields 403, not NotFound -/

/-- C4 counterexample: on the empty store, `recordId = 1` resolves to no
assignment, yet `setAttendance` answers `forbidden` (403) — the outcome is
not the distinct `notFound` the claim requires. -/
theorem setAttendance_missing_record_cex :
    setAttendance ⟨[], [], [], [], 7⟩ ⟨10, "org"⟩ 1 true =
      (.forbidden, ⟨[], [], [], [], 7⟩) ∧
    (AttendanceResult.forbidden ≠ AttendanceResult.notFound) := by
  decide

/-- C4 amended: for every `recordId` that resolves to no assignment,
`setAttendance` answers `forbidden` (403) — the same outcome as an
ownership failure, with no distinct `NotFound` — and the store, hence
every assignment's attended flag, is unchanged. -/
theorem setAttendance_missing_record (s : Store) (u : AuthUser)
    (recordId : Nat) (b : Bool)
    (h : s.assignments.find? (fun a => a.id = recordId) = none) :
    setAttendance s u recordId b = (.forbidden, s) := by
  unfold setAttendance chainOrganizer
  rw [h]

/-- C4 amended, witness at the concrete missing record. -/
theorem setAttendance_missing_record_witness :
    setAttendance ⟨[], [], [], [], 7⟩ ⟨10, "org"⟩ 1 true =
      (.forbidden, ⟨[], [], [], [], 7⟩) :=
  setAttendance_missing_record ⟨[], [], [], [], 7⟩ ⟨10, "org"⟩ 1 true rfl

/-! ### C5 — signup never checks that the role exists -/

/-- C5 counterexample: on a store with NO roles at all, a volunteer's
signup for role id 99 answers 201 and creates an assignment row referencing
the nonexistent role — not the `notFound` the claim requires. -/
theorem signup_missing_role_cex :
    signup ⟨[], [], [], [], 7⟩ ⟨5, "volunteer"⟩ 99 =
      (.signedUp, ⟨[], [], [⟨7, 5, 99, false⟩], [], 8⟩) ∧
    (SignupResult.signedUp ≠ SignupResult.notFound) := by
  decide

/-- C5 amended: the signup handler never consults the roles table.  For
every volunteer caller and every `roleId` that references no existing role,
provided the pair has no prior assignment, the call succeeds (201) and
appends an assignment row referencing the nonexistent role; `NotFound` is
never produced. -/
theorem signup_missing_role (s : Store) (u : AuthUser) (roleId : Nat)
    (ht : u.userType = "volunteer")
    (_hr : ∀ r ∈ s.roles, r.id ≠ roleId)
    (hd : ∀ a ∈ s.assignments, ¬(a.volunteerId = u.userId ∧ a.roleId = roleId)) :
    signup s u roleId =
      (.signedUp,
        { s with
          assignments := s.assignments ++ [⟨s.nextId, u.userId, roleId, false⟩]
          nextId := s.nextId + 1 }) := by
  simp [signup, ht]
  intro a ha hv hr
  exact hd a ha ⟨hv, hr⟩

/-- C5 amended, witness at the concrete missing role. -/
theorem signup_missing_role_witness :
    signup ⟨[], [], [], [], 7⟩ ⟨5, "volunteer"⟩ 99 =
      (.signedUp,
        { (⟨[], [], [], [], 7⟩ : Store) with
          assignments := [] ++ [⟨7, 5, 99, false⟩]
          nextId := 7 + 1 }) :=
  signup_missing_role ⟨[], [], [], [], 7⟩ ⟨5, "volunteer"⟩ 99 rfl
    (by intro r hr; cases hr) (by intro a ha; cases ha)

/-! ### C6 — ownership mismatch is always rejected with no state change -/

/-- C6: for both mutation and roster listing, a caller whose account id
differs from the organizer id reached by the ownership lookup is rejected
with 403 and nothing changes: `setAttendance` (whose `chainOrganizer`
lookup is exactly the Assignment → Role → Event → organizer chain) returns
`forbidden` with the store exactly as it was, and `listVolunteers` (a
read-only handler) returns `forbidden`. -/
theorem ownership_mismatch_rejected (s : Store) (u : AuthUser) (rid eid : Nat)
    (b : Bool) (orgId : Nat) (e : Event) :
    (chainOrganizer s rid = some orgId → orgId ≠ u.userId →
      setAttendance s u rid b = (.forbidden, s)) ∧
    (s.events.find? (fun ev => ev.id = eid) = some e → e.organizerId ≠ u.userId →
      listVolunteers s u eid = .forbidden) := by
  constructor
  · intro h hne
    simp [setAttendance, h, hne]
  · intro h hne
    simp [listVolunteers, h, hne]

/-- C6 witness: organizer 10 owns event 1 with role 2 and assignment 3;
the unrelated account 99 is rejected by both handlers with no change. -/
theorem ownership_mismatch_rejected_witness :
    setAttendance
        ⟨[⟨1, 10, "E", "d", 100, "loc"⟩], [⟨2, 1, "Setup", "d", 2⟩],
          [⟨3, 20, 2, false⟩], [], 50⟩ ⟨99, "org"⟩ 3 true =
      (.forbidden,
        ⟨[⟨1, 10, "E", "d", 100, "loc"⟩], [⟨2, 1, "Setup", "d", 2⟩],
          [⟨3, 20, 2, false⟩], [], 50⟩) ∧
    listVolunteers
        ⟨[⟨1, 10, "E", "d", 100, "loc"⟩], [⟨2, 1, "Setup", "d", 2⟩],
          [⟨3, 20, 2, false⟩], [], 50⟩ ⟨99, "org"⟩ 1 = .forbidden :=
  ⟨(ownership_mismatch_rejected _ ⟨99, "org"⟩ 3 1 true 10
      ⟨1, 10, "E", "d", 100, "loc"⟩).1 (by decide) (by decide),
   (ownership_mismatch_rejected _ ⟨99, "org"⟩ 3 1 true 10
      ⟨1, 10, "E", "d", 100, "loc"⟩).2 (by decide) (by decide)⟩

/-! ### C9 — setAttendance is idempotent -/

theorem find_id_map_update (l : List Assignment) (rid : Nat) (b : Bool) :
    (l.map (fun a => if a.id = rid then { a with attended := b } else a)).find?
        (fun a => a.id = rid) =
      (l.find? (fun a => a.id = rid)).map
        (fun a => if a.id = rid then { a with attended := b } else a) := by
  induction l with
  | nil => rfl
  | cons a l ih =>
    by_cases h : a.id = rid
    · simp [List.find?_cons, h]
    · simp [List.find?_cons, h, ih]

theorem chainOrganizer_update (s : Store) (rid : Nat) (b : Bool) :
    chainOrganizer
        { s with
          assignments := s.assignments.map
            (fun a => if a.id = rid then { a with attended := b } else a) } rid =
      chainOrganizer s rid := by
  unfold chainOrganizer
  simp only [find_id_map_update]
  cases h : s.assignments.find? (fun a => a.id = rid) with
  | none => rfl
  | some a =>
    have hrole :
        (if a.id = rid then ({ a with attended := b } : Assignment) else a).roleId =
          a.roleId := by
      split <;> rfl
    simp [hrole]

theorem update_map_idem (l : List Assignment) (rid : Nat) (b : Bool) :
    ((l.map (fun a => if a.id = rid then { a with attended := b } else a)).map
        (fun a => if a.id = rid then { a with attended := b } else a)) =
      l.map (fun a => if a.id = rid then { a with attended := b } else a) := by
  induction l with
  | nil => rfl
  | cons a l ih =>
    simp only [List.map_cons, ih]
    by_cases h : a.id = rid
    · simp [h]
    · simp [h]

theorem setAttendance_success (s : Store) (u : AuthUser) (rid : Nat) (b : Bool)
    (h : chainOrganizer s rid = some u.userId) :
    setAttendance s u rid b =
      (.updated,
        { s with
          assignments := s.assignments.map
            (fun a => if a.id = rid then { a with attended := b } else a) }) := by
  unfold setAttendance
  rw [h]
  simp

/-- C9: `setAttendance` is idempotent.  Whenever the ownership chain of a
record resolves to the caller's own id, the call succeeds, and calling it a
second time with the same attended value succeeds again and leaves the
store exactly as after the first call. -/
theorem setAttendance_idempotent (s : Store) (u : AuthUser) (rid : Nat)
    (b : Bool) (h : chainOrganizer s rid = some u.userId) :
    ∃ s1, setAttendance s u rid b = (.updated, s1) ∧
      setAttendance s1 u rid b = (.updated, s1) := by
  have h1 := setAttendance_success s u rid b h
  have hchain : chainOrganizer
      { s with
        assignments := s.assignments.map
          (fun a => if a.id = rid then { a with attended := b } else a) } rid =
      some u.userId := by
    rw [chainOrganizer_update]; exact h
  have h2 := setAttendance_success _ u rid b hchain
  refine ⟨_, h1, ?_⟩
  rw [h2]
  show (AttendanceResult.updated,
      ({ s with
        assignments := (s.assignments.map
            (fun a => if a.id = rid then { a with attended := b } else a)).map
          (fun a => if a.id = rid then { a with attended := b } else a) } : Store)) =
    (AttendanceResult.updated,
      ({ s with
        assignments := s.assignments.map
          (fun a => if a.id = rid then { a with attended := b } else a) } : Store))
  rw [update_map_idem]

/-- C9 witness: organizer 10 marks assignment 3 attended twice; both calls
succeed and the second changes nothing. -/
theorem setAttendance_idempotent_witness :
    ∃ s1,
      setAttendance
          ⟨[⟨1, 10, "E", "d", 100, "loc"⟩], [⟨2, 1, "Setup", "d", 2⟩],
            [⟨3, 20, 2, false⟩], [], 50⟩ ⟨10, "org"⟩ 3 true = (.updated, s1) ∧
        setAttendance s1 ⟨10, "org"⟩ 3 true = (.updated, s1) :=
  setAttendance_idempotent
    ⟨[⟨1, 10, "E", "d", 100, "loc"⟩], [⟨2, 1, "Setup", "d", 2⟩],
      [⟨3, 20, 2, false⟩], [], 50⟩ ⟨10, "org"⟩ 3 true (by decide)

/-! ### C10 — the ownership checks never inspect the account kind -/

/-- C10: both `setAttendance` and `listVolunteers` depend only on the
caller's `userId`, never on `userType`; in particular a caller tagged
"volunteer" whose id equals the organizer id reached by the ownership
lookup passes authorization, may update attendance, and may list the
roster. -/
theorem handlers_ignore_account_kind (s : Store) (uid : Nat) (t t' : String)
    (rid eid : Nat) (b : Bool) :
    setAttendance s ⟨uid, t⟩ rid b = setAttendance s ⟨uid, t'⟩ rid b ∧
    listVolunteers s ⟨uid, t⟩ eid = listVolunteers s ⟨uid, t'⟩ eid ∧
    (chainOrganizer s rid = some uid →
      (setAttendance s ⟨uid, "volunteer"⟩ rid b).1 = .updated) ∧
    (∀ e, s.events.find? (fun ev => ev.id = eid) = some e →
      e.organizerId = uid →
      ∃ rows, listVolunteers s ⟨uid, "volunteer"⟩ eid = .rows rows) := by
  refine ⟨?_, ?_, ?_, ?_⟩
  · unfold setAttendance
    cases chainOrganizer s rid <;> simp
  · unfold listVolunteers
    cases s.events.find? (fun ev => ev.id = eid) <;> simp
  · intro h
    simp [setAttendance, h]
  · intro e h hown
    refine ⟨(rosterJoin s eid).mergeSort rosterLe, ?_⟩
    simp [listVolunteers, h, hown]

/-- C10 witness: a caller of kind "volunteer" with id 10, equal to the
organizer id of event 1, updates attendance record 3 and lists the roster
of event 1; the kind tag makes no difference to either handler. -/
theorem handlers_ignore_account_kind_witness :
    setAttendance
        ⟨[⟨1, 10, "E", "d", 100, "loc"⟩], [⟨2, 1, "Setup", "d", 2⟩],
          [⟨3, 20, 2, false⟩], [⟨20, "V", "v@x"⟩], 50⟩ ⟨10, "org"⟩ 3 true =
      setAttendance
        ⟨[⟨1, 10, "E", "d", 100, "loc"⟩], [⟨2, 1, "Setup", "d", 2⟩],
          [⟨3, 20, 2, false⟩], [⟨20, "V", "v@x"⟩], 50⟩ ⟨10, "volunteer"⟩ 3 true ∧
    (setAttendance
        ⟨[⟨1, 10, "E", "d", 100, "loc"⟩], [⟨2, 1, "Setup", "d", 2⟩],
          [⟨3, 20, 2, false⟩], [⟨20, "V", "v@x"⟩], 50⟩
        ⟨10, "volunteer"⟩ 3 true).1 = .updated ∧
    ∃ rows,
      listVolunteers
          ⟨[⟨1, 10, "E", "d", 100, "loc"⟩], [⟨2, 1, "Setup", "d", 2⟩],
            [⟨3, 20, 2, false⟩], [⟨20, "V", "v@x"⟩], 50⟩
          ⟨10, "volunteer"⟩ 1 = .rows rows :=
  ⟨(handlers_ignore_account_kind _ 10 "org" "volunteer" 3 1 true).1,
   (handlers_ignore_account_kind _ 10 "org" "volunteer" 3 1 true).2.2.1
     (by decide),
   (handlers_ignore_account_kind _ 10 "org" "volunteer" 3 1 true).2.2.2
     ⟨1, 10, "E", "d", 100, "loc"⟩ (by decide) rfl⟩

/-! ### C7 / C8 — profile partition, ordering, and stats -/

theorem dateAsc_trans (a b c : ProfileEntry) (h1 : dateAsc a b = true)
    (h2 : dateAsc b c = true) : dateAsc a c = true := by
  simp only [dateAsc, decide_eq_true_eq] at *
  exact le_trans h1 h2

theorem dateAsc_total (a b : ProfileEntry) : (dateAsc a b || dateAsc b a) = true := by
  simp only [dateAsc, Bool.or_eq_true, decide_eq_true_eq]
  exact le_total _ _

theorem dateDesc_trans (a b c : ProfileEntry) (h1 : dateDesc a b = true)
    (h2 : dateDesc b c = true) : dateDesc a c = true := by
  simp only [dateDesc, decide_eq_true_eq] at *
  exact le_trans h2 h1

theorem dateDesc_total (a b : ProfileEntry) : (dateDesc a b || dateDesc b a) = true := by
  simp only [dateDesc, Bool.or_eq_true, decide_eq_true_eq]
  exact le_total _ _

theorem upcomingOf_perm (s : Store) (uid : Nat) (now : Int) :
    (upcomingOf s uid now).Perm
      ((profileJoin s uid).filter (fun x => now < x.event.date)) :=
  List.mergeSort_perm _ _

theorem pastOf_perm (s : Store) (uid : Nat) (now : Int) :
    (pastOf s uid now).Perm
      ((profileJoin s uid).filter (fun x => x.event.date ≤ now)) :=
  List.mergeSort_perm _ _

theorem upcomingOf_sorted (s : Store) (uid : Nat) (now : Int) :
    List.Sorted (fun x y : ProfileEntry => x.event.date ≤ y.event.date)
      (upcomingOf s uid now) := by
  have h := List.sorted_mergeSort dateAsc_trans dateAsc_total
    ((profileJoin s uid).filter (fun x => now < x.event.date))
  exact h.imp (fun hab => by simpa [dateAsc] using hab)

theorem pastOf_sorted (s : Store) (uid : Nat) (now : Int) :
    List.Sorted (fun x y : ProfileEntry => y.event.date ≤ x.event.date)
      (pastOf s uid now) := by
  have h := List.sorted_mergeSort dateDesc_trans dateDesc_total
    ((profileJoin s uid).filter (fun x => x.event.date ≤ now))
  exact h.imp (fun hab => by simpa [dateDesc] using hab)

theorem volunteerProfile_eq (s : Store) (u : AuthUser) (now : Int)
    (ht : u.userType = "volunteer") :
    volunteerProfile s u now =
      .ok ⟨upcomingOf s u.userId now, pastOf s u.userId now,
        ⟨((pastOf s u.userId now).filter (fun x => x.attended)).length,
          ((pastOf s u.userId now).filter (fun x => x.attended)).length * 3⟩⟩ := by
  simp [volunteerProfile, ht]

/-- C7: the profile partitions the volunteer's assigned events by date.
`upcoming` is, up to order, exactly the joined rows with date strictly
greater than now and is sorted ascending by date; `past` is exactly the
rows with date ≤ now and is sorted descending; a row whose event date
equals now at query time lands in `past` and never in `upcoming`. -/
theorem volunteerProfile_partition (s : Store) (u : AuthUser) (now : Int)
    (ht : u.userType = "volunteer") :
    ∃ p, volunteerProfile s u now = .ok p ∧
      p.upcoming.Perm
        ((profileJoin s u.userId).filter (fun x => now < x.event.date)) ∧
      p.past.Perm
        ((profileJoin s u.userId).filter (fun x => x.event.date ≤ now)) ∧
      List.Sorted (fun x y : ProfileEntry => x.event.date ≤ y.event.date)
        p.upcoming ∧
      List.Sorted (fun x y : ProfileEntry => y.event.date ≤ x.event.date)
        p.past ∧
      (∀ x ∈ p.upcoming, now < x.event.date) ∧
      (∀ x ∈ p.past, x.event.date ≤ now) ∧
      (∀ x ∈ profileJoin s u.userId, x.event.date = now →
        x ∈ p.past ∧ x ∉ p.upcoming) := by
  refine ⟨_, volunteerProfile_eq s u now ht, upcomingOf_perm s u.userId now,
    pastOf_perm s u.userId now, upcomingOf_sorted s u.userId now,
    pastOf_sorted s u.userId now, ?_, ?_, ?_⟩
  · intro x hx
    have hx2 := (upcomingOf_perm s u.userId now).mem_iff.mp hx
    have hx3 := List.mem_filter.mp hx2
    simpa using hx3.2
  · intro x hx
    have hx2 := (pastOf_perm s u.userId now).mem_iff.mp hx
    have hx3 := List.mem_filter.mp hx2
    simpa using hx3.2
  · intro x hx hdate
    constructor
    · exact (pastOf_perm s u.userId now).mem_iff.mpr
        (List.mem_filter.mpr ⟨hx, by simp [hdate]⟩)
    · intro hcon
      have hx2 := (upcomingOf_perm s u.userId now).mem_iff.mp hcon
      have hx3 := List.mem_filter.mp hx2
      rw [hdate] at hx3
      simpa using hx3.2

/-- C7 witness: volunteer 5 holds assignments on event 1 (date 100) and
event 2 (date 50); at now = 100 the partition classifies event 1 (date
exactly now) as past. -/
theorem volunteerProfile_partition_witness :
    ∃ p,
      volunteerProfile
          ⟨[⟨1, 10, "E1", "d", 100, "l"⟩, ⟨2, 10, "E2", "d", 50, "l"⟩],
            [⟨3, 1, "R1", "d", 2⟩, ⟨4, 2, "R2", "d", 2⟩],
            [⟨5, 5, 3, false⟩, ⟨6, 5, 4, true⟩], [], 50⟩
          ⟨5, "volunteer"⟩ 100 = .ok p ∧
        p.upcoming.Perm
          ((profileJoin
              ⟨[⟨1, 10, "E1", "d", 100, "l"⟩, ⟨2, 10, "E2", "d", 50, "l"⟩],
                [⟨3, 1, "R1", "d", 2⟩, ⟨4, 2, "R2", "d", 2⟩],
                [⟨5, 5, 3, false⟩, ⟨6, 5, 4, true⟩], [], 50⟩ 5).filter
            (fun x => 100 < x.event.date)) ∧
        p.past.Perm
          ((profileJoin
              ⟨[⟨1, 10, "E1", "d", 100, "l"⟩, ⟨2, 10, "E2", "d", 50, "l"⟩],
                [⟨3, 1, "R1", "d", 2⟩, ⟨4, 2, "R2", "d", 2⟩],
                [⟨5, 5, 3, false⟩, ⟨6, 5, 4, true⟩], [], 50⟩ 5).filter
            (fun x => x.event.date ≤ 100)) ∧
        List.Sorted (fun x y : ProfileEntry => x.event.date ≤ y.event.date)
          p.upcoming ∧
        List.Sorted (fun x y : ProfileEntry => y.event.date ≤ x.event.date)
          p.past ∧
        (∀ x ∈ p.upcoming, 100 < x.event.date) ∧
        (∀ x ∈ p.past, x.event.date ≤ 100) ∧
        (∀ x ∈ profileJoin
            ⟨[⟨1, 10, "E1", "d", 100, "l"⟩, ⟨2, 10, "E2", "d", 50, "l"⟩],
              [⟨3, 1, "R1", "d", 2⟩, ⟨4, 2, "R2", "d", 2⟩],
              [⟨5, 5, 3, false⟩, ⟨6, 5, 4, true⟩], [], 50⟩ 5,
          x.event.date = 100 → x ∈ p.past ∧ x ∉ p.upcoming) :=
  volunteerProfile_partition
    ⟨[⟨1, 10, "E1", "d", 100, "l"⟩, ⟨2, 10, "E2", "d", 50, "l"⟩],
      [⟨3, 1, "R1", "d", 2⟩, ⟨4, 2, "R2", "d", 2⟩],
      [⟨5, 5, 3, false⟩, ⟨6, 5, 4, true⟩], [], 50⟩
    ⟨5, "volunteer"⟩ 100 rfl

/-- C8: in every profile response, `stats.totalEvents` equals the number
of `past` entries whose attended flag is true, and `stats.totalHours`
equals `totalEvents × 3`. -/
theorem volunteerProfile_stats (s : Store) (u : AuthUser) (now : Int)
    (ht : u.userType = "volunteer") :
    ∃ p, volunteerProfile s u now = .ok p ∧
      p.stats.totalEvents = (p.past.filter (fun x => x.attended)).length ∧
      p.stats.totalHours = p.stats.totalEvents * 3 :=
  ⟨_, volunteerProfile_eq s u now ht, rfl, rfl⟩

/-- C8 witness at a concrete store: one attended past event gives
`totalEvents = 1` and `totalHours = 3`. -/
theorem volunteerProfile_stats_witness :
    ∃ p,
      volunteerProfile
          ⟨[⟨1, 10, "E1", "d", 100, "l"⟩], [⟨3, 1, "R1", "d", 2⟩],
            [⟨5, 5, 3, true⟩], [], 50⟩ ⟨5, "volunteer"⟩ 200 = .ok p ∧
        p.stats.totalEvents = (p.past.filter (fun x => x.attended)).length ∧
        p.stats.totalHours = p.stats.totalEvents * 3 :=
  volunteerProfile_stats
    ⟨[⟨1, 10, "E1", "d", 100, "l"⟩], [⟨3, 1, "R1", "d", 2⟩],
      [⟨5, 5, 3, true⟩], [], 50⟩ ⟨5, "volunteer"⟩ 200 rfl

end TaskVoloners
